import Mathlib

/-!
Verification development for the BTC/USDT trading bot repository.

The definitions below are a shallow embedding of the Python sources:
  * `src/indicators.py`  (TechnicalIndicators)
  * `src/price_action.py` (PriceActionAnalyzer)
  * `src/trading_bot.py` (BTCTradingBot)

Prices, volumes and balances are embedded as rationals (`ℚ`); pandas NaN
and infinity arising from `volume / volume_sma` are embedded by the small
inductive `FVal`.  Candle frames are lists of `Candle`, oldest first, and
the indicator columns of `add_all_indicators` are embedded as functions
computing the cells that the analyzers actually read (the values at the
last rows of each column).
-/

/-- One OHLCV candle, restricted to the two fields the analyzers read
(`close` and `volume`). -/
structure Candle where
  close : ℚ
  volume : ℚ
deriving DecidableEq

/-- Column of closes of a candle frame. -/
def closes (c : List Candle) : List ℚ := c.map Candle.close

/-- Column of volumes of a candle frame. -/
def volumes (c : List Candle) : List ℚ := c.map Candle.volume

/-- The last `k` elements of a list: the trailing window a pandas
`rolling(window=k)` mean averages at the last row. -/
def takeLast (k : ℕ) (l : List ℚ) : List ℚ := l.drop (l.length - k)

/-- Value at the last row of a `rolling(window=period).mean()` column
(`TechnicalIndicators.calculate_ma` / `calculate_volume_sma`,
`src/indicators.py` lines 24, 60, 84): `none` embeds the pandas NaN that
stands at the last row while fewer than `period` rows exist. -/
def rollingMeanLast (period : ℕ) (xs : List ℚ) : Option ℚ :=
  if period ≤ xs.length then some ((takeLast period xs).sum / (period : ℚ))
  else none

/-- Tail of the OBV series: starting from the previous close and previous
OBV value, produce the OBV value of each remaining candle
(`TechnicalIndicators.calculate_obv`, `src/indicators.py` lines 37-46). -/
def obvStep (prevClose prevObv : ℚ) : List Candle → List ℚ
  | [] => []
  | c :: rest =>
    let o := if c.close > prevClose then prevObv + c.volume
      else if c.close < prevClose then prevObv - c.volume
      else prevObv
    o :: obvStep c.close o rest

/-- Full OBV series of a candle frame: obv[0] = 0, then `obvStep`
(`TechnicalIndicators.calculate_obv`). -/
def obvSeries : List Candle → List ℚ
  | [] => []
  | c :: rest => 0 :: obvStep c.close 0 rest

/-- `last_row['close']` (the guards of every caller keep the frame
nonempty; the default 0 is never read there). -/
def lastClose (c : List Candle) : ℚ := (closes c).getLastD 0

/-- `last_row['volume']`. -/
def lastVolume (c : List Candle) : ℚ := (volumes c).getLastD 0

/-- Embedding of the IEEE values that `volume / volume_sma` can take in
pandas: a number, NaN (zero-over-zero or an undefined denominator), or a
signed infinity (nonzero-over-zero). -/
inductive FVal where
  | nan : FVal
  | inf : FVal
  | ninf : FVal
  | q : ℚ → FVal
deriving DecidableEq

/-- Float division of a number by an optional denominator, with numpy
semantics: NaN denominator gives NaN; a zero denominator gives ±infinity
for a nonzero numerator and NaN for a zero numerator. -/
def fdiv (x : ℚ) (d : Option ℚ) : FVal :=
  match d with
  | none => FVal.nan
  | some dv =>
    if dv = 0 then
      if 0 < x then FVal.inf else if x < 0 then FVal.ninf else FVal.nan
    else FVal.q (x / dv)

/-- The float comparison `v > c`: false whenever `v` is NaN, true for
+infinity, false for -infinity. -/
def fvalGt (v : FVal) (c : ℚ) : Bool :=
  match v with
  | FVal.nan => false
  | FVal.inf => true
  | FVal.ninf => false
  | FVal.q x => decide (c < x)

/-- Value at the last row of the `volume_ratio` column added by
`TechnicalIndicators.add_all_indicators` (`src/indicators.py` line 88):
`df['volume'] / df['volume_sma']` where `volume_sma` is the 20-period
rolling mean of volume. -/
def volume_ratio_last (c : List Candle) : FVal :=
  fdiv (lastVolume c) (rollingMeanLast 20 (volumes c))

/-- `PriceActionAnalyzer.detect_trend` (`src/price_action.py` lines
13-43) applied to the frame enriched by `add_all_indicators`: the
`ma_10/ma_30/ma_60` cells of the last row are the rolling means, which
are never `None` there (the columns exist), and the separate NaN case
(fewer rows than the period) also lands in the `neutral` fall-through,
exactly as the Python comparisons with NaN do. -/
def detect_trend (c : List Candle) : String :=
  if c.length < 60 then "neutral"
  else
    match rollingMeanLast 10 (closes c), rollingMeanLast 30 (closes c),
        rollingMeanLast 60 (closes c) with
    | some ma10, some ma30, some ma60 =>
      if ma10 > ma30 ∧ ma30 > ma60 ∧ lastClose c > ma10 then "bullish"
      else if ma10 < ma30 ∧ ma30 < ma60 ∧ lastClose c < ma10 then "bearish"
      else "neutral"
    | _, _, _ => "neutral"

/-- `PriceActionAnalyzer.detect_main_trend` (`src/price_action.py` lines
113-145): classification of the percentage spread between ma_30 and
ma_60 at the last row. -/
def detect_main_trend (c : List Candle) : String :=
  if c.length < 60 then "neutral"
  else
    match rollingMeanLast 30 (closes c), rollingMeanLast 60 (closes c) with
    | some ma30, some ma60 =>
      let diff_percent := ((ma30 - ma60) / ma60) * 100
      if diff_percent > 2 then "strong_bullish"
      else if diff_percent > 1/2 then "bullish"
      else if diff_percent < -2 then "strong_bearish"
      else if diff_percent < -(1/2) then "bearish"
      else "neutral"
    | _, _ => "neutral"

/-- The two boolean outputs of `PriceActionAnalyzer.analyze_volume` that
`generate_signal` reads. -/
structure VolumeAnalysis where
  high_volume : Bool
  increasing_volume : Bool
deriving DecidableEq

/-- `PriceActionAnalyzer.analyze_volume` (`src/price_action.py` lines
46-71) on the enriched frame: `last_row.get('volume_ratio', 1.0)` finds
the column (added by `add_all_indicators`), so the cell value — possibly
NaN — is used, and `high_volume` is the float comparison `> 1.5`. -/
def analyze_volume (c : List Candle) : VolumeAnalysis :=
  if c.length < 2 then ⟨false, false⟩
  else
    ⟨fvalGt (volume_ratio_last c) (3/2),
     decide ((volumes c).getD (c.length - 2) 0 < lastVolume c)⟩

/-- The outputs of `PriceActionAnalyzer.analyze_obv` that
`generate_signal` reads. -/
structure ObvAnalysis where
  obv_trend : String
  obv_divergence : Bool
deriving DecidableEq

/-- `PriceActionAnalyzer.analyze_obv` (`src/price_action.py` lines
74-110) on the enriched frame: with at least 20 rows the `obv` and
`obv_ma` cells of the last row are defined, `iloc[-5]` is the cell five
rows from the end, and divergence compares the 5-candle price direction
with the 5-candle OBV direction. -/
def analyze_obv (c : List Candle) : ObvAnalysis :=
  if c.length < 20 then ⟨"neutral", false⟩
  else
    let obv := (obvSeries c).getLastD 0
    let obv_ma := (rollingMeanLast 20 (obvSeries c)).getD 0
    let obv_trend :=
      if obv > obv_ma then "bullish"
      else if obv < obv_ma then "bearish"
      else "neutral"
    let price_up := decide ((closes c).getD (c.length - 5) 0 < lastClose c)
    let obv_up := decide (0 < obv - (obvSeries c).getD (c.length - 5) 0)
    ⟨obv_trend, price_up != obv_up⟩

/-- The buy-side vote count of `PriceActionAnalyzer.generate_signal`
(`src/price_action.py` lines 184-213); the `last_row.get('ma_*', 0)`
cells are the rolling means of the enriched frame, defined at the last
row since the caller has at least 60 candles. -/
def buy_conditions (c : List Candle) : ℕ :=
  let va := analyze_volume c
  let close := lastClose c
  let ma10 := (rollingMeanLast 10 (closes c)).getD 0
  let ma30 := (rollingMeanLast 30 (closes c)).getD 0
  let ma60 := (rollingMeanLast 60 (closes c)).getD 0
  (if detect_trend c = "bullish" then 2 else 0)
  + (if (analyze_obv c).obv_trend = "bullish" then 1 else 0)
  + (if va.high_volume then 1 else 0)
  + (if va.increasing_volume then 1 else 0)
  + (if close > ma10 ∧ ma10 > ma30 then 1 else 0)
  + (if close > ma60 then 1 else 0)

/-- The sell-side vote count of `PriceActionAnalyzer.generate_signal`
(`src/price_action.py` lines 216-251): zero whenever the main trend is
`strong_bullish` or `bullish`, otherwise the sum of the bearish votes. -/
def sell_conditions (c : List Candle) : ℕ :=
  let main_trend := detect_main_trend c
  if main_trend = "strong_bullish" ∨ main_trend = "bullish" then 0
  else
    let close := lastClose c
    let ma10 := (rollingMeanLast 10 (closes c)).getD 0
    let ma30 := (rollingMeanLast 30 (closes c)).getD 0
    let ma60 := (rollingMeanLast 60 (closes c)).getD 0
    (if detect_trend c = "bearish" then 2 else 0)
    + (if (analyze_obv c).obv_trend = "bearish" then 1 else 0)
    + (if close < ma10 ∧ ma10 < ma30 then 1 else 0)
    + (if close < ma60 then 1 else 0)
    + (if (analyze_obv c).obv_divergence then 1 else 0)
    + (if (analyze_volume c).high_volume then 1 else 0)

/-- The fields of the dictionary `generate_signal` returns in its main
branch that the bot reads (`signal`, `confidence`, `trend`,
`main_trend`, `price`); the `reasons` list and the nested analysis
dictionaries are not read by the state machine and are omitted. -/
structure Signal where
  signal : String
  confidence : ℕ
  trend : String
  main_trend : String
  price : ℚ
deriving DecidableEq

/-- The main branch of `PriceActionAnalyzer.generate_signal`
(`src/price_action.py` lines 166-278): the decision rule over the two
vote counts. -/
def fullSignalOf (c : List Candle) : Signal :=
  let b := buy_conditions c
  let s := sell_conditions c
  if 4 ≤ b then
    ⟨"BUY", min (b * 15) 100, detect_trend c, detect_main_trend c, lastClose c⟩
  else if 4 ≤ s then
    ⟨"SELL", min (s * 15) 100, detect_trend c, detect_main_trend c, lastClose c⟩
  else
    ⟨"HOLD", 0, detect_trend c, detect_main_trend c, lastClose c⟩

/-- Result of `PriceActionAnalyzer.generate_signal`: the early
insufficient-data dictionary (`src/price_action.py` lines 159-164), or
the full dictionary. -/
inductive SignalResult where
  | insufficient : SignalResult
  | full : Signal → SignalResult
deriving DecidableEq

/-- `PriceActionAnalyzer.generate_signal` (`src/price_action.py` lines
148-278). -/
def generate_signal (c : List Candle) : SignalResult :=
  if c.length < 60 then SignalResult.insufficient
  else SignalResult.full (fullSignalOf c)

/-- The `'signal'` entry of the returned dictionary (the early branch
carries `'HOLD'`). -/
def SignalResult.sig : SignalResult → String
  | SignalResult.insufficient => "HOLD"
  | SignalResult.full s => s.signal

/-- The `'confidence'` entry of the returned dictionary (the early
branch carries 0). -/
def SignalResult.conf : SignalResult → ℕ
  | SignalResult.insufficient => 0
  | SignalResult.full s => s.confidence

/-- Configuration of the bot: the fields of `src/config.py` and the
pyramiding/contrarian attributes set in `BTCTradingBot.__init__`
(`src/trading_bot.py` lines 76-86), with their default values. -/
structure Config where
  trade_amount : ℚ := 1/1000
  max_position_size : ℚ := 1/100
  stop_loss_percent : ℚ := 3
  take_profit_percent : ℚ := 6
  testnet : Bool := true
  max_pyramid_levels : ℕ := 3
  pyramid_step_percent : ℚ := 3/2
  pullback_percent : ℚ := 1
  bounce_percent : ℚ := 1
deriving DecidableEq

/-- The default configuration. -/
def defaultCfg : Config := {}

/-- Balances the exchange reports during one tick (`get_balance`,
`src/trading_bot.py` lines 169-184). -/
structure Env where
  usdt_balance : ℚ
  btc_balance : ℚ
deriving DecidableEq

/-- One pyramid lot: the dictionary `{'price': ..., 'size': ...}`
appended to `self.pyramid_levels` by `add_to_position`. -/
structure PyLevel where
  price : ℚ
  size : ℚ
deriving DecidableEq

/-- One entry of `session_stats['closed_trades']` (timestamp omitted). -/
structure ClosedTrade where
  ctype : String
  entry_price : ℚ
  exit_price : ℚ
  position_size : ℚ
  pnl_percent : ℚ
  pnl_usdt : ℚ
deriving DecidableEq

/-- The mutable bot attributes the state machine reads and writes:
position tracking (`self.position`, `self.entry_price`,
`self.position_size`, `self.pyramid_levels`, `self.last_pyramid_price`,
`self.local_high`, `self.local_low`) and the session counters touched by
trading transitions.  `local_low = none` embeds the initial
`float('inf')`. -/
structure BotState where
  position : Option String
  entry_price : ℚ
  position_size : ℚ
  pyramid_levels : List PyLevel
  last_pyramid_price : ℚ
  local_high : ℚ
  local_low : Option ℚ
  closed_trades : List ClosedTrade
  positions_opened : ℕ
  positions_closed : ℕ
deriving DecidableEq

/-- `BTCTradingBot.reset_position_tracking` (`src/trading_bot.py` lines
509-517). -/
def reset_position_tracking (st : BotState) : BotState :=
  { st with
    position := none
    entry_price := 0
    position_size := 0
    pyramid_levels := []
    last_pyramid_price := 0
    local_high := 0
    local_low := none }

/-- `dict.get` on the signal dictionary, restricted to the string-valued
top-level keys of the dictionary built by the main branch of
`generate_signal`.  Note that `'obv_trend'` is NOT a top-level key of
that dictionary (it sits inside the nested `'obv_analysis'` dictionary),
so `signal.get('obv_trend')` is `None`. -/
def Signal.getStr (s : Signal) (key : String) : Option String :=
  if key = "signal" then some s.signal
  else if key = "trend" then some s.trend
  else if key = "main_trend" then some s.main_trend
  else none

/-- The local constant `min_confidence = 60` of
`BTCTradingBot.execute_trade` (`src/trading_bot.py` line 230). -/
def minConfidence : ℕ := 60

/-- `current_price < self.local_low` where `local_low` may be the
initial `float('inf')` (embedded as `none`). -/
def qltInf (p : ℚ) (o : Option ℚ) : Bool :=
  match o with
  | none => true
  | some x => decide (p < x)

/-- `BTCTradingBot.update_local_extremes` (`src/trading_bot.py` lines
352-368).  The comparisons are against the UPPERCASE literals
`'BULLISH'` / `'BEARISH'` exactly as in the source. -/
def update_local_extremes (current_price : ℚ) (s : Signal) (st : BotState) :
    BotState :=
  let st1 :=
    if (s.getStr "trend" = some "BULLISH" ∨ s.getStr "main_trend" = some "BULLISH")
        ∧ st.local_high < current_price
    then { st with local_high := current_price } else st
  if (s.getStr "trend" = some "BEARISH" ∨ s.getStr "main_trend" = some "BEARISH")
      ∧ qltInf current_price st1.local_low
  then { st1 with local_low := some current_price } else st1

/-- `BTCTradingBot.check_pyramid_opportunity` (`src/trading_bot.py`
lines 370-407).  The main-trend comparisons are against the UPPERCASE
literals `'BULLISH'` / `'BEARISH'` exactly as in the source. -/
def check_pyramid_opportunity (cfg : Config) (current_price : ℚ) (s : Signal)
    (st : BotState) : Bool :=
  if st.position.isNone then false
  else if cfg.max_pyramid_levels ≤ st.pyramid_levels.length then false
  else
    let ref_price := if 0 < st.last_pyramid_price then st.last_pyramid_price
      else st.entry_price
    if st.position = some "long" then
      let gain_percent := (current_price - ref_price) / ref_price * 100
      decide (cfg.pyramid_step_percent ≤ gain_percent)
        && decide (s.signal = "BUY")
        && decide (s.getStr "main_trend" = some "BULLISH")
    else if st.position = some "short" then
      let gain_percent := (ref_price - current_price) / ref_price * 100
      decide (cfg.pyramid_step_percent ≤ gain_percent)
        && decide (s.signal = "SELL")
        && decide (s.getStr "main_trend" = some "BEARISH")
    else false

/-- `BTCTradingBot.add_to_position` (`src/trading_bot.py` lines
409-464).  The long and short branches perform the same state update
(they differ only in the side of the submitted order), guarded by the
order succeeding (`if order:`).  Note the source's average-entry loop
runs over `self.pyramid_levels` AFTER the new level was appended, while
`self.entry_price * self.position_size` already accounts for every lot
bought so far. -/
def add_to_position (cfg : Config) (orderOk : Bool) (s : Signal)
    (st : BotState) : BotState :=
  let trade_amount := cfg.trade_amount
  if st.position = some "long" ∨ st.position = some "short" then
    if orderOk then
      let levels := st.pyramid_levels ++ [⟨s.price, trade_amount⟩]
      let total_cost := st.entry_price * st.position_size
        + (levels.map (fun l => l.price * l.size)).sum
      let new_size := st.position_size + trade_amount
      { st with
        pyramid_levels := levels
        last_pyramid_price := s.price
        position_size := new_size
        entry_price := total_cost / new_size }
    else st
  else st

/-- `BTCTradingBot.check_contrarian_entry` (`src/trading_bot.py` lines
466-507).  The main-trend comparisons are against the UPPERCASE literals
and `signal.get('obv_trend')` reads a key that is absent from the
top level of the signal dictionary, exactly as in the source. -/
def check_contrarian_entry (cfg : Config) (current_price : ℚ) (s : Signal)
    (st : BotState) : Bool :=
  if st.position.isSome then false
  else if s.getStr "main_trend" = some "BULLISH" ∧ 0 < st.local_high then
    let pullback := (st.local_high - current_price) / st.local_high * 100
    decide (cfg.pullback_percent ≤ pullback)
      && decide (s.getStr "obv_trend" = some "bullish")
  else if s.getStr "main_trend" = some "BEARISH" ∧ st.local_low.isSome then
    let lo := st.local_low.getD 0
    let bounce := (current_price - lo) / lo * 100
    decide (cfg.bounce_percent ≤ bounce)
      && decide (s.getStr "obv_trend" = some "bearish")
  else false

/-- `BTCTradingBot.check_stop_loss_take_profit` (`src/trading_bot.py`
lines 519-613).  `orderOk` is the result of the `place_order` call the
source makes on a forced close; the source discards that result, so it
does not influence the state update.  On a long stop-loss/take-profit
the reset only happens when the reported BTC balance is positive; on a
short one it is unconditional, exactly as in the source. -/
def check_stop_loss_take_profit (cfg : Config) (env : Env) (orderOk : Bool)
    (current_price : ℚ) (st : BotState) : BotState :=
  if st.position = none ∨ st.entry_price = 0 then st
  else if st.position = some "long" ∨ st.position = some "short" then
    let pnl_percent :=
      if st.position = some "long"
      then (current_price - st.entry_price) / st.entry_price * 100
      else (st.entry_price - current_price) / st.entry_price * 100
    if pnl_percent ≤ -cfg.stop_loss_percent then
      if st.position = some "long" then
        let st1 := { st with
          closed_trades := st.closed_trades ++
            [⟨"STOP_LOSS_LONG", st.entry_price, current_price,
              st.position_size, pnl_percent,
              st.position_size * (current_price - st.entry_price)⟩]
          positions_closed := st.positions_closed + 1 }
        if 0 < env.btc_balance then reset_position_tracking st1 else st1
      else
        let st1 := { st with
          closed_trades := st.closed_trades ++
            [⟨"STOP_LOSS_SHORT", st.entry_price, current_price,
              st.position_size, pnl_percent,
              st.position_size * (st.entry_price - current_price)⟩]
          positions_closed := st.positions_closed + 1 }
        reset_position_tracking st1
    else if cfg.take_profit_percent ≤ pnl_percent then
      if st.position = some "long" then
        let st1 := { st with
          closed_trades := st.closed_trades ++
            [⟨"TAKE_PROFIT_LONG", st.entry_price, current_price,
              st.position_size, pnl_percent,
              st.position_size * (current_price - st.entry_price)⟩]
          positions_closed := st.positions_closed + 1 }
        if 0 < env.btc_balance then reset_position_tracking st1 else st1
      else
        let st1 := { st with
          closed_trades := st.closed_trades ++
            [⟨"TAKE_PROFIT_SHORT", st.entry_price, current_price,
              st.position_size, pnl_percent,
              st.position_size * (st.entry_price - current_price)⟩]
          positions_closed := st.positions_closed + 1 }
        reset_position_tracking st1
    else st
  else st

/-- `BTCTradingBot.execute_trade` (`src/trading_bot.py` lines 221-350).
`orderOk` is the result of the single `place_order` call the taken
branch makes (in testnet mode `place_order` always returns an order, and
the testnet SHORT opening places no order at all). -/
def execute_trade (cfg : Config) (env : Env) (orderOk : Bool) (s : Signal)
    (st : BotState) : BotState :=
  if s.signal = "BUY" ∧ minConfidence ≤ s.confidence then
    if st.position = some "short" then
      let st1 :=
        if 0 < st.entry_price ∧ 0 < st.position_size then
          { st with
            closed_trades := st.closed_trades ++
              [⟨"CLOSE_SHORT", st.entry_price, s.price, st.position_size,
                (st.entry_price - s.price) / st.entry_price * 100,
                st.position_size * (st.entry_price - s.price)⟩]
            positions_closed := st.positions_closed + 1 }
        else st
      if orderOk then reset_position_tracking st1 else st1
    else if st.position = none then
      let trade_amount := min cfg.trade_amount cfg.max_position_size
      if s.price * trade_amount < env.usdt_balance then
        if orderOk then
          { st with
            position := some "long"
            entry_price := s.price
            position_size := trade_amount
            positions_opened := st.positions_opened + 1 }
        else st
      else st
    else st
  else if s.signal = "SELL" ∧ minConfidence ≤ s.confidence then
    if st.position = some "long" then
      let st1 :=
        if 0 < st.entry_price ∧ 0 < st.position_size then
          { st with
            closed_trades := st.closed_trades ++
              [⟨"CLOSE_LONG", st.entry_price, s.price, st.position_size,
                (s.price - st.entry_price) / st.entry_price * 100,
                st.position_size * (s.price - st.entry_price)⟩]
            positions_closed := st.positions_closed + 1 }
        else st
      if 0 < env.btc_balance then
        if orderOk then reset_position_tracking st1 else st1
      else st1
    else if st.position = none then
      if cfg.testnet then
        { st with
          position := some "short"
          entry_price := s.price
          position_size := cfg.trade_amount
          positions_opened := st.positions_opened + 1 }
      else if cfg.trade_amount ≤ env.btc_balance then
        if orderOk then
          { st with
            position := some "short"
            entry_price := s.price
            position_size := cfg.trade_amount
            positions_opened := st.positions_opened + 1 }
        else st
      else st
    else st
  else st

/-- One iteration of `BTCTradingBot.run` (`src/trading_bot.py` lines
909-948) after the signal has been generated from a frame of at least 60
candles: update local extremes, check stop-loss/take-profit, then either
pyramid, or (contrarian or not) execute the signal.  `oSL` is the result
of the order a forced close submits (discarded by the source), `oT` the
result of the order the signal-driven branch submits.  `track_signal`,
`print_analysis` and the report generator do not touch the position
state and are omitted. -/
def tickWithSignal (cfg : Config) (env : Env) (oSL oT : Bool) (s : Signal)
    (st : BotState) : BotState :=
  let st1 := update_local_extremes s.price s st
  let st2 := check_stop_loss_take_profit cfg env oSL s.price st1
  if check_pyramid_opportunity cfg s.price s st2 then
    add_to_position cfg oT s st2
  else if check_contrarian_entry cfg s.price s st2 then
    execute_trade cfg env oT s st2
  else
    execute_trade cfg env oT s st2

/-- The buy-side vote count is at most 7 (2+1+1+1+1+1). -/
theorem buy_conditions_le_seven (c : List Candle) : buy_conditions c ≤ 7 := by
  simp only [buy_conditions]
  split_ifs <;> decide

/-- The sell-side vote count is at most 7 (2+1+1+1+1+1). -/
theorem sell_conditions_le_seven (c : List Candle) : sell_conditions c ≤ 7 := by
  simp only [sell_conditions]
  split_ifs <;> decide

/-- C1.  For every candle frame of at least 60 candles, whenever
`detect_main_trend` classifies the main trend as bullish or
strong_bullish, `generate_signal` forces the sell-side vote count to 0
and the returned signal is never SELL, whatever every other indicator
is. -/
theorem main_trend_veto_blocks_sell (c : List Candle) (hlen : 60 ≤ c.length)
    (h : detect_main_trend c = "bullish" ∨ detect_main_trend c = "strong_bullish") :
    sell_conditions c = 0 ∧ (generate_signal c).sig ≠ "SELL" := by
  have h2 : detect_main_trend c = "strong_bullish" ∨ detect_main_trend c = "bullish" :=
    h.elim (fun hb => Or.inr hb) (fun hb => Or.inl hb)
  have hs : sell_conditions c = 0 := by
    simp only [sell_conditions]
    rw [if_pos h2]
  refine ⟨hs, ?_⟩
  have hnl : ¬ c.length < 60 := by omega
  unfold generate_signal
  rw [if_neg hnl]
  simp only [SignalResult.sig, fullSignalOf]
  split_ifs with h1 h3
  · exact (by decide : ("BUY" : String) ≠ "SELL")
  · rw [hs] at h3; omega
  · exact (by decide : ("HOLD" : String) ≠ "SELL")

/-- Witness for C1: sixty candles whose last 30 closes sit 10 above the
first 30, putting ma_30 well above ma_60. -/
def wC1 : List Candle :=
  List.replicate 30 ⟨100, 1⟩ ++ List.replicate 30 ⟨110, 1⟩

/-- Closes of `wC1`: thirty at 100 then thirty at 110. -/
theorem closes_wC1 : closes wC1 = List.replicate 30 100 ++ List.replicate 30 110 := by
  simp [wC1, closes]

/-- At the last row of `wC1`, ma_30 is 110. -/
theorem ma30_wC1 : rollingMeanLast 30 (closes wC1) = some 110 := by
  rw [closes_wC1]
  simp only [rollingMeanLast, takeLast, List.length_append, List.length_replicate]
  rw [if_pos (by norm_num)]
  rw [(by norm_num : (30 : ℕ) + 30 - 30 = 30),
    List.drop_left' (show (List.replicate 30 (100 : ℚ)).length = 30 by simp)]
  simp [List.sum_replicate]
  norm_num

/-- At the last row of `wC1`, ma_60 is 105. -/
theorem ma60_wC1 : rollingMeanLast 60 (closes wC1) = some 105 := by
  rw [closes_wC1]
  simp only [rollingMeanLast, takeLast, List.length_append, List.length_replicate]
  rw [if_pos (by norm_num)]
  rw [(by norm_num : (30 : ℕ) + 30 - 60 = 0), List.drop_zero]
  simp [List.sum_replicate]
  norm_num

/-- The main trend of `wC1` is strong_bullish. -/
theorem detect_main_trend_wC1 : detect_main_trend wC1 = "strong_bullish" := by
  simp only [detect_main_trend]
  rw [if_neg (by decide : ¬ wC1.length < 60), ma30_wC1, ma60_wC1]
  norm_num

/-- C1 witness: the veto theorem applied to `wC1`. -/
theorem main_trend_veto_blocks_sell_witness :
    (60 ≤ wC1.length
      ∧ (detect_main_trend wC1 = "bullish" ∨ detect_main_trend wC1 = "strong_bullish"))
    ∧ (sell_conditions wC1 = 0 ∧ (generate_signal wC1).sig ≠ "SELL") :=
  ⟨⟨by decide, Or.inr detect_main_trend_wC1⟩,
   main_trend_veto_blocks_sell wC1 (by decide) (Or.inr detect_main_trend_wC1)⟩

/-- C2.  For every candle frame of fewer than 60 candles,
`generate_signal` returns HOLD with confidence 0. -/
theorem insufficient_data_holds (c : List Candle) (h : c.length < 60) :
    (generate_signal c).sig = "HOLD" ∧ (generate_signal c).conf = 0 := by
  unfold generate_signal
  rw [if_pos h]
  exact ⟨rfl, rfl⟩

/-- C2 witness: the empty frame. -/
theorem insufficient_data_holds_witness :
    ([] : List Candle).length < 60
      ∧ ((generate_signal ([] : List Candle)).sig = "HOLD"
        ∧ (generate_signal ([] : List Candle)).conf = 0) :=
  ⟨by decide, insufficient_data_holds [] (by decide)⟩

/-- C3.  For every candle frame of at least 60 candles, the decision
rule of `generate_signal`: BUY with confidence `min(buy*15, 100)` when
the buy votes reach 4, else SELL with confidence `min(sell*15, 100)`
when the sell votes reach 4, else HOLD with confidence 0; and BUY wins
whenever both thresholds are met. -/
theorem generate_signal_decision_rule (c : List Candle) (hlen : 60 ≤ c.length) :
    (4 ≤ buy_conditions c →
      (generate_signal c).sig = "BUY"
        ∧ (generate_signal c).conf = min (buy_conditions c * 15) 100)
    ∧ (buy_conditions c < 4 → 4 ≤ sell_conditions c →
      (generate_signal c).sig = "SELL"
        ∧ (generate_signal c).conf = min (sell_conditions c * 15) 100)
    ∧ (buy_conditions c < 4 → sell_conditions c < 4 →
      (generate_signal c).sig = "HOLD" ∧ (generate_signal c).conf = 0)
    ∧ (4 ≤ buy_conditions c → 4 ≤ sell_conditions c →
      (generate_signal c).sig = "BUY") := by
  have hnl : ¬ c.length < 60 := by omega
  unfold generate_signal
  rw [if_neg hnl]
  simp only [SignalResult.sig, SignalResult.conf, fullSignalOf]
  split_ifs with h1 h2
  · exact ⟨fun _ => ⟨rfl, rfl⟩,
      fun hb => absurd h1 (by omega),
      fun hb _ => absurd h1 (by omega),
      fun _ _ => rfl⟩
  · exact ⟨fun hb => absurd hb (by omega),
      fun _ _ => ⟨rfl, rfl⟩,
      fun _ hs => absurd h2 (by omega),
      fun hb _ => absurd hb (by omega)⟩
  · exact ⟨fun hb => absurd hb (by omega),
      fun _ hs => absurd hs (by omega),
      fun _ _ => ⟨rfl, rfl⟩,
      fun hb _ => absurd hb (by omega)⟩

/-- Witness frame for C3: sixty identical candles. -/
def wC3 : List Candle := List.replicate 60 ⟨100, 1⟩

/-- C3 witness: the decision rule applied to `wC3`. -/
theorem generate_signal_decision_rule_witness :
    60 ≤ wC3.length
    ∧ ((4 ≤ buy_conditions wC3 →
        (generate_signal wC3).sig = "BUY"
          ∧ (generate_signal wC3).conf = min (buy_conditions wC3 * 15) 100)
      ∧ (buy_conditions wC3 < 4 → 4 ≤ sell_conditions wC3 →
        (generate_signal wC3).sig = "SELL"
          ∧ (generate_signal wC3).conf = min (sell_conditions wC3 * 15) 100)
      ∧ (buy_conditions wC3 < 4 → sell_conditions wC3 < 4 →
        (generate_signal wC3).sig = "HOLD" ∧ (generate_signal wC3).conf = 0)
      ∧ (4 ≤ buy_conditions wC3 → 4 ≤ sell_conditions wC3 →
        (generate_signal wC3).sig = "BUY")) :=
  ⟨by decide, generate_signal_decision_rule wC3 (by decide)⟩

/-- C10.  For every candle frame, the confidence returned by
`generate_signal` is 0 exactly when the signal is HOLD, always lies in
{0, 60, 75, 90, 100}, and every non-HOLD signal clears the hard-coded
`min_confidence = 60` gate of `execute_trade`. -/
theorem generate_signal_confidence_values (c : List Candle) :
    ((generate_signal c).conf = 0 ↔ (generate_signal c).sig = "HOLD")
    ∧ ((generate_signal c).conf = 0 ∨ (generate_signal c).conf = 60
      ∨ (generate_signal c).conf = 75 ∨ (generate_signal c).conf = 90
      ∨ (generate_signal c).conf = 100)
    ∧ ((generate_signal c).sig ≠ "HOLD" →
      minConfidence ≤ (generate_signal c).conf) := by
  by_cases hlen : c.length < 60
  · unfold generate_signal
    rw [if_pos hlen]
    refine ⟨by simp [SignalResult.sig, SignalResult.conf], Or.inl rfl, ?_⟩
    intro hne
    exact absurd rfl hne
  · have hb := buy_conditions_le_seven c
    have hs := sell_conditions_le_seven c
    unfold generate_signal
    rw [if_neg hlen]
    simp only [SignalResult.sig, SignalResult.conf, fullSignalOf]
    split_ifs with h1 h2
    · have hv : min (buy_conditions c * 15) 100 = 60
          ∨ min (buy_conditions c * 15) 100 = 75
          ∨ min (buy_conditions c * 15) 100 = 90
          ∨ min (buy_conditions c * 15) 100 = 100 := by
        interval_cases (buy_conditions c) <;> simp
      have hge : minConfidence ≤ min (buy_conditions c * 15) 100 := by
        rcases hv with h | h | h | h <;> rw [h] <;> decide
      refine ⟨?_, ?_, fun _ => hge⟩
      · show min (buy_conditions c * 15) 100 = 0 ↔ ("BUY" : String) = "HOLD"
        constructor
        · intro h0
          simp only [minConfidence] at hge
          rw [h0] at hge
          exact absurd hge (by decide)
        · intro hcon
          exact absurd hcon (by decide : ("BUY" : String) ≠ "HOLD")
      · right
        exact hv
    · have hv : min (sell_conditions c * 15) 100 = 60
          ∨ min (sell_conditions c * 15) 100 = 75
          ∨ min (sell_conditions c * 15) 100 = 90
          ∨ min (sell_conditions c * 15) 100 = 100 := by
        interval_cases (sell_conditions c) <;> simp
      have hge : minConfidence ≤ min (sell_conditions c * 15) 100 := by
        rcases hv with h | h | h | h <;> rw [h] <;> decide
      refine ⟨?_, ?_, fun _ => hge⟩
      · show min (sell_conditions c * 15) 100 = 0 ↔ ("SELL" : String) = "HOLD"
        constructor
        · intro h0
          simp only [minConfidence] at hge
          rw [h0] at hge
          exact absurd hge (by decide)
        · intro hcon
          exact absurd hcon (by decide : ("SELL" : String) ≠ "HOLD")
      · right
        exact hv
    · exact ⟨⟨fun _ => rfl, fun _ => rfl⟩, Or.inl rfl, fun hne => absurd rfl hne⟩

/-- `detect_trend` only ever returns one of its three lowercase
literals. -/
theorem detect_trend_mem (c : List Candle) :
    detect_trend c = "bullish" ∨ detect_trend c = "bearish"
      ∨ detect_trend c = "neutral" := by
  unfold detect_trend
  split
  · exact Or.inr (Or.inr rfl)
  · split
    · split_ifs
      · exact Or.inl rfl
      · exact Or.inr (Or.inl rfl)
      · exact Or.inr (Or.inr rfl)
    · exact Or.inr (Or.inr rfl)

/-- `detect_main_trend` only ever returns one of its five lowercase
literals. -/
theorem detect_main_trend_mem (c : List Candle) :
    detect_main_trend c = "strong_bullish" ∨ detect_main_trend c = "bullish"
      ∨ detect_main_trend c = "strong_bearish" ∨ detect_main_trend c = "bearish"
      ∨ detect_main_trend c = "neutral" := by
  unfold detect_main_trend
  split
  · exact Or.inr (Or.inr (Or.inr (Or.inr rfl)))
  · split
    · dsimp only
      split_ifs
      · exact Or.inl rfl
      · exact Or.inr (Or.inl rfl)
      · exact Or.inr (Or.inr (Or.inl rfl))
      · exact Or.inr (Or.inr (Or.inr (Or.inl rfl)))
      · exact Or.inr (Or.inr (Or.inr (Or.inr rfl)))
    · exact Or.inr (Or.inr (Or.inr (Or.inr rfl)))

/-- The `trend` field of the full signal is the `detect_trend` value. -/
theorem fullSignalOf_trend (c : List Candle) :
    (fullSignalOf c).trend = detect_trend c := by
  simp only [fullSignalOf]
  split_ifs <;> rfl

/-- The `main_trend` field of the full signal is the
`detect_main_trend` value. -/
theorem fullSignalOf_main_trend (c : List Candle) :
    (fullSignalOf c).main_trend = detect_main_trend c := by
  simp only [fullSignalOf]
  split_ifs <;> rfl

/-- The `trend` field of a generated signal is never one of the
UPPERCASE literals the bot compares against. -/
theorem fullSignalOf_trend_ne (c : List Candle) :
    (fullSignalOf c).trend ≠ "BULLISH" ∧ (fullSignalOf c).trend ≠ "BEARISH" := by
  rw [fullSignalOf_trend]
  rcases detect_trend_mem c with h | h | h <;> rw [h] <;>
    exact ⟨by decide, by decide⟩

/-- The `main_trend` field of a generated signal is never one of the
UPPERCASE literals the bot compares against. -/
theorem fullSignalOf_main_trend_ne (c : List Candle) :
    (fullSignalOf c).main_trend ≠ "BULLISH"
      ∧ (fullSignalOf c).main_trend ≠ "BEARISH" := by
  rw [fullSignalOf_main_trend]
  rcases detect_main_trend_mem c with h | h | h | h | h <;> rw [h] <;>
    exact ⟨by decide, by decide⟩

/-- `dict.get 'trend'` on the signal dictionary. -/
theorem getStr_trend (s : Signal) : s.getStr "trend" = some s.trend := by
  simp [Signal.getStr]

/-- `dict.get 'main_trend'` on the signal dictionary. -/
theorem getStr_main_trend (s : Signal) :
    s.getStr "main_trend" = some s.main_trend := by
  simp [Signal.getStr]

/-- `dict.get 'obv_trend')` on the signal dictionary is `None`: the key
only exists inside the nested `obv_analysis` dictionary. -/
theorem getStr_obv_trend (s : Signal) : s.getStr "obv_trend" = none := by
  simp [Signal.getStr]

/-- C5.  On every signal produced by `generate_signal`,
`check_pyramid_opportunity` returns False — whatever the configuration,
price and position state — because the signal's `main_trend` is a
lowercase literal while the bot compares it with `'BULLISH'` /
`'BEARISH'`.  Pyramiding is therefore unreachable from the run loop. -/
theorem pyramiding_never_triggers (c : List Candle) (cfg : Config)
    (price : ℚ) (st : BotState) :
    check_pyramid_opportunity cfg price (fullSignalOf c) st = false := by
  have hm := fullSignalOf_main_trend_ne c
  simp only [check_pyramid_opportunity]
  split_ifs <;> simp [getStr_main_trend, hm.1, hm.2]

/-- C7.  On every signal produced by `generate_signal`,
`update_local_extremes` leaves the state unchanged (its comparisons are
against the UPPERCASE `'BULLISH'` / `'BEARISH'` which never occur) and
`check_contrarian_entry` returns False (for the same reason, and because
it reads the absent top-level key `'obv_trend'`). -/
theorem contrarian_engine_dead (c : List Candle) (cfg : Config) (price : ℚ)
    (st : BotState) :
    update_local_extremes price (fullSignalOf c) st = st
      ∧ check_contrarian_entry cfg price (fullSignalOf c) st = false := by
  have hm := fullSignalOf_main_trend_ne c
  have ht := fullSignalOf_trend_ne c
  constructor
  · have hc1 : ¬ (((fullSignalOf c).getStr "trend" = some "BULLISH"
        ∨ (fullSignalOf c).getStr "main_trend" = some "BULLISH")
        ∧ st.local_high < price) := by
      rintro ⟨hor, -⟩
      rcases hor with h | h
      · rw [getStr_trend] at h
        exact ht.1 (Option.some.inj h)
      · rw [getStr_main_trend] at h
        exact hm.1 (Option.some.inj h)
    have hc2 : ¬ (((fullSignalOf c).getStr "trend" = some "BEARISH"
        ∨ (fullSignalOf c).getStr "main_trend" = some "BEARISH")
        ∧ qltInf price st.local_low = true) := by
      rintro ⟨hor, -⟩
      rcases hor with h | h
      · rw [getStr_trend] at h
        exact ht.2 (Option.some.inj h)
      · rw [getStr_main_trend] at h
        exact hm.2 (Option.some.inj h)
    simp only [update_local_extremes]
    rw [if_neg hc1, if_neg hc2]
  · simp only [check_contrarian_entry]
    split_ifs <;> simp [getStr_obv_trend]

/-- A long position opened at 100 with the default lot size and no
pyramid lots yet. -/
def wSt6 : BotState :=
  { position := some "long", entry_price := 100, position_size := 1/1000,
    pyramid_levels := [], last_pyramid_price := 0, local_high := 0,
    local_low := none, closed_trades := [], positions_opened := 1,
    positions_closed := 0 }

/-- A BUY signal at price 100. -/
def wSig6 : Signal := ⟨"BUY", 75, "bullish", "bullish", 100⟩

/-- State after one pyramid add at 100 (order filled). -/
def wSt6a : BotState := add_to_position defaultCfg true wSig6 wSt6

/-- State after a second pyramid add at 100 (order filled). -/
def wSt6b : BotState := add_to_position defaultCfg true wSig6 wSt6a

/-- Evaluation of the first pyramid add: the average entry is still
correct after one lot. -/
theorem wSt6a_eval : wSt6a =
    { position := some "long", entry_price := 100, position_size := 1/500,
      pyramid_levels := [⟨100, 1/1000⟩], last_pyramid_price := 100,
      local_high := 0, local_low := none, closed_trades := [],
      positions_opened := 1, positions_closed := 0 } := by
  simp only [wSt6a, add_to_position, wSt6, wSig6, defaultCfg]
  norm_num

/-- Evaluation of the second pyramid add: the loop re-adds the first
pyramid lot, which `entry_price * position_size` already contains, and
the average entry jumps to 400/3 although every lot was bought at
100. -/
theorem wSt6b_eval : wSt6b =
    { position := some "long", entry_price := 400/3, position_size := 3/1000,
      pyramid_levels := [⟨100, 1/1000⟩, ⟨100, 1/1000⟩],
      last_pyramid_price := 100, local_high := 0, local_low := none,
      closed_trades := [], positions_opened := 1, positions_closed := 0 } := by
  rw [wSt6b, wSt6a_eval]
  simp only [add_to_position, wSig6, defaultCfg]
  norm_num

/-- C6.  After two successful pyramid adds at price 100 on a long opened
at 100, the size half of the position invariant still holds, but
`entry_price` becomes 400/3 > 100 = max(lot prices): the entry price
escapes the interval spanned by the lot prices, because
`add_to_position` double-counts the earlier pyramid lots when it
recomputes the average entry. -/
theorem add_to_position_entry_price_escapes :
    wSt6b.pyramid_levels ≠ []
    ∧ wSt6b.position_size
        = wSt6.position_size + (wSt6b.pyramid_levels.map PyLevel.size).sum
    ∧ wSt6.entry_price = 100
    ∧ (∀ l ∈ wSt6b.pyramid_levels, l.price = 100)
    ∧ wSt6b.entry_price = 400/3
    ∧ 100 < wSt6b.entry_price := by
  rw [wSt6b_eval]
  refine ⟨by simp, by simp [wSt6]; norm_num, rfl, ?_, rfl, by norm_num⟩
  intro l hl
  simp only [List.mem_cons, List.not_mem_nil, or_false] at hl
  rcases hl with h | h <;> subst h <;> rfl

/-- `update_local_extremes` only ever touches `local_high` and
`local_low`. -/
theorem update_local_extremes_fields (p : ℚ) (s : Signal) (st : BotState) :
    (update_local_extremes p s st).position = st.position
    ∧ (update_local_extremes p s st).entry_price = st.entry_price
    ∧ (update_local_extremes p s st).position_size = st.position_size
    ∧ (update_local_extremes p s st).pyramid_levels = st.pyramid_levels
    ∧ (update_local_extremes p s st).closed_trades = st.closed_trades := by
  simp only [update_local_extremes]
  split_ifs <;> simp

/-- With no position, `check_pyramid_opportunity` is False. -/
theorem check_pyramid_opportunity_none (cfg : Config) (p : ℚ) (s : Signal)
    (st : BotState) (h : st.position = none) :
    check_pyramid_opportunity cfg p s st = false := by
  simp [check_pyramid_opportunity, h]

/-- With no position, `execute_trade` records no closed trade (it can
only open a fresh position). -/
theorem execute_trade_closed_trades_none (cfg : Config) (env : Env)
    (o : Bool) (s : Signal) (st : BotState) (h : st.position = none) :
    (execute_trade cfg env o s st).closed_trades = st.closed_trades := by
  unfold execute_trade
  rw [h]
  split_ifs <;> simp_all [apply_ite BotState.closed_trades]

/-- Once the stop-loss/take-profit step has flattened the position, the
rest of the tick cannot add a closed trade. -/
theorem tick_closed_trades_after_force_close (cfg : Config) (env : Env)
    (oSL oT : Bool) (s : Signal) (st : BotState)
    (h : (check_stop_loss_take_profit cfg env oSL s.price
        (update_local_extremes s.price s st)).position = none) :
    (tickWithSignal cfg env oSL oT s st).closed_trades
      = (check_stop_loss_take_profit cfg env oSL s.price
          (update_local_extremes s.price s st)).closed_trades := by
  simp only [tickWithSignal]
  rw [check_pyramid_opportunity_none _ _ _ _ h]
  simp only [Bool.false_eq_true, if_false]
  rw [ite_self]
  exact execute_trade_closed_trades_none _ _ _ _ _ h

/-- Long stop-loss evaluation of `check_stop_loss_take_profit`. -/
theorem sl_long_eval (cfg : Config) (env : Env) (o : Bool) (p : ℚ)
    (st : BotState) (hpos : st.position = some "long")
    (hentry : st.entry_price ≠ 0) (hbtc : 0 < env.btc_balance)
    (hsl : (p - st.entry_price) / st.entry_price * 100 ≤ -cfg.stop_loss_percent) :
    check_stop_loss_take_profit cfg env o p st
      = reset_position_tracking { st with
          closed_trades := st.closed_trades ++
            [⟨"STOP_LOSS_LONG", st.entry_price, p, st.position_size,
              (p - st.entry_price) / st.entry_price * 100,
              st.position_size * (p - st.entry_price)⟩]
          positions_closed := st.positions_closed + 1 } := by
  unfold check_stop_loss_take_profit
  rw [hpos]
  rw [if_neg (by simp [hentry])]
  rw [if_pos (Or.inl rfl)]
  simp only [reduceIte]
  rw [if_pos hsl, if_pos hbtc]

/-- Short stop-loss evaluation of `check_stop_loss_take_profit`. -/
theorem sl_short_eval (cfg : Config) (env : Env) (o : Bool) (p : ℚ)
    (st : BotState) (hpos : st.position = some "short")
    (hentry : st.entry_price ≠ 0)
    (hsl : (st.entry_price - p) / st.entry_price * 100 ≤ -cfg.stop_loss_percent) :
    check_stop_loss_take_profit cfg env o p st
      = reset_position_tracking { st with
          closed_trades := st.closed_trades ++
            [⟨"STOP_LOSS_SHORT", st.entry_price, p, st.position_size,
              (st.entry_price - p) / st.entry_price * 100,
              st.position_size * (st.entry_price - p)⟩]
          positions_closed := st.positions_closed + 1 } := by
  unfold check_stop_loss_take_profit
  rw [hpos]
  rw [if_neg (by simp [hentry])]
  rw [if_pos (Or.inr rfl)]
  have hne : ¬ ((some "short" : Option String) = some "long") := by simp
  simp only [hne, if_false]
  rw [if_pos hsl]

/-- Long take-profit evaluation of `check_stop_loss_take_profit`. -/
theorem tp_long_eval (cfg : Config) (env : Env) (o : Bool) (p : ℚ)
    (st : BotState) (hpos : st.position = some "long")
    (hentry : st.entry_price ≠ 0) (hbtc : 0 < env.btc_balance)
    (hnsl : ¬ (p - st.entry_price) / st.entry_price * 100 ≤ -cfg.stop_loss_percent)
    (htp : cfg.take_profit_percent ≤ (p - st.entry_price) / st.entry_price * 100) :
    check_stop_loss_take_profit cfg env o p st
      = reset_position_tracking { st with
          closed_trades := st.closed_trades ++
            [⟨"TAKE_PROFIT_LONG", st.entry_price, p, st.position_size,
              (p - st.entry_price) / st.entry_price * 100,
              st.position_size * (p - st.entry_price)⟩]
          positions_closed := st.positions_closed + 1 } := by
  unfold check_stop_loss_take_profit
  rw [hpos]
  rw [if_neg (by simp [hentry])]
  rw [if_pos (Or.inl rfl)]
  simp only [reduceIte]
  rw [if_neg hnsl, if_pos htp, if_pos hbtc]

/-- Short take-profit evaluation of `check_stop_loss_take_profit`. -/
theorem tp_short_eval (cfg : Config) (env : Env) (o : Bool) (p : ℚ)
    (st : BotState) (hpos : st.position = some "short")
    (hentry : st.entry_price ≠ 0)
    (hnsl : ¬ (st.entry_price - p) / st.entry_price * 100 ≤ -cfg.stop_loss_percent)
    (htp : cfg.take_profit_percent ≤ (st.entry_price - p) / st.entry_price * 100) :
    check_stop_loss_take_profit cfg env o p st
      = reset_position_tracking { st with
          closed_trades := st.closed_trades ++
            [⟨"TAKE_PROFIT_SHORT", st.entry_price, p, st.position_size,
              (st.entry_price - p) / st.entry_price * 100,
              st.position_size * (st.entry_price - p)⟩]
          positions_closed := st.positions_closed + 1 } := by
  unfold check_stop_loss_take_profit
  rw [hpos]
  rw [if_neg (by simp [hentry])]
  rw [if_pos (Or.inr rfl)]
  have hne : ¬ ((some "short" : Option String) = some "long") := by simp
  simp only [hne, if_false]
  rw [if_neg hnsl, if_pos htp]

/-- C4 (amended).  In a tick with an open position, the
stop-loss/take-profit check runs before any signal-driven transition:
when the pnl fraction crosses the stop-loss (take-profit) threshold,
the tick appends exactly one ClosedTrade — the STOP_LOSS (TAKE_PROFIT)
one carrying the threshold pnl — and never the signal-driven CLOSE
trade, whatever the signal says, PROVIDED that on a long the exchange
reports a positive BTC balance: the long branch of
`check_stop_loss_take_profit` only resets after checking the balance,
and with a zero reported balance the position survives into
`execute_trade`, which then appends the signal-driven CLOSE_LONG as
well (see the counterexample below).  Short paths are unconditional. -/
theorem stop_loss_checked_before_signal (cfg : Config) (env : Env)
    (oSL oT : Bool) (s : Signal) (st : BotState)
    (hSL : 0 < cfg.stop_loss_percent) (hTP : 0 < cfg.take_profit_percent)
    (hentry : st.entry_price ≠ 0) :
    (st.position = some "long" → 0 < env.btc_balance →
      ((s.price - st.entry_price) / st.entry_price * 100 ≤ -cfg.stop_loss_percent →
        (tickWithSignal cfg env oSL oT s st).closed_trades
          = st.closed_trades ++
            [⟨"STOP_LOSS_LONG", st.entry_price, s.price, st.position_size,
              (s.price - st.entry_price) / st.entry_price * 100,
              st.position_size * (s.price - st.entry_price)⟩])
      ∧ (cfg.take_profit_percent ≤ (s.price - st.entry_price) / st.entry_price * 100 →
        (tickWithSignal cfg env oSL oT s st).closed_trades
          = st.closed_trades ++
            [⟨"TAKE_PROFIT_LONG", st.entry_price, s.price, st.position_size,
              (s.price - st.entry_price) / st.entry_price * 100,
              st.position_size * (s.price - st.entry_price)⟩]))
    ∧ (st.position = some "short" →
      ((st.entry_price - s.price) / st.entry_price * 100 ≤ -cfg.stop_loss_percent →
        (tickWithSignal cfg env oSL oT s st).closed_trades
          = st.closed_trades ++
            [⟨"STOP_LOSS_SHORT", st.entry_price, s.price, st.position_size,
              (st.entry_price - s.price) / st.entry_price * 100,
              st.position_size * (st.entry_price - s.price)⟩])
      ∧ (cfg.take_profit_percent ≤ (st.entry_price - s.price) / st.entry_price * 100 →
        (tickWithSignal cfg env oSL oT s st).closed_trades
          = st.closed_trades ++
            [⟨"TAKE_PROFIT_SHORT", st.entry_price, s.price, st.position_size,
              (st.entry_price - s.price) / st.entry_price * 100,
              st.position_size * (st.entry_price - s.price)⟩])) := by
  obtain ⟨hP, hE, hS, hPy, hC⟩ := update_local_extremes_fields s.price s st
  refine ⟨fun hpos hbtc => ⟨?_, ?_⟩, fun hpos => ⟨?_, ?_⟩⟩
  · intro hsl
    have hev := sl_long_eval cfg env oSL s.price _ (hP.trans hpos)
      (by rw [hE]; exact hentry) hbtc (by rw [hE]; exact hsl)
    rw [tick_closed_trades_after_force_close cfg env oSL oT s st
      (by rw [hev]; rfl), hev]
    simp [reset_position_tracking, hC, hE, hS]
  · intro htp
    have hnsl : ¬ (s.price - st.entry_price) / st.entry_price * 100
        ≤ -cfg.stop_loss_percent := by
      push_neg
      linarith
    have hev := tp_long_eval cfg env oSL s.price _ (hP.trans hpos)
      (by rw [hE]; exact hentry) hbtc (by rw [hE]; exact hnsl)
      (by rw [hE]; exact htp)
    rw [tick_closed_trades_after_force_close cfg env oSL oT s st
      (by rw [hev]; rfl), hev]
    simp [reset_position_tracking, hC, hE, hS]
  · intro hsl
    have hev := sl_short_eval cfg env oSL s.price _ (hP.trans hpos)
      (by rw [hE]; exact hentry) (by rw [hE]; exact hsl)
    rw [tick_closed_trades_after_force_close cfg env oSL oT s st
      (by rw [hev]; rfl), hev]
    simp [reset_position_tracking, hC, hE, hS]
  · intro htp
    have hnsl : ¬ (st.entry_price - s.price) / st.entry_price * 100
        ≤ -cfg.stop_loss_percent := by
      push_neg
      linarith
    have hev := tp_short_eval cfg env oSL s.price _ (hP.trans hpos)
      (by rw [hE]; exact hentry) (by rw [hE]; exact hnsl)
      (by rw [hE]; exact htp)
    rw [tick_closed_trades_after_force_close cfg env oSL oT s st
      (by rw [hev]; rfl), hev]
    simp [reset_position_tracking, hC, hE, hS]

/-- Witness state for C4: a long at entry 100, default lot size. -/
def wSt4 : BotState :=
  { position := some "long", entry_price := 100, position_size := 1/1000,
    pyramid_levels := [], last_pyramid_price := 0, local_high := 0,
    local_low := none, closed_trades := [], positions_opened := 1,
    positions_closed := 0 }

/-- Witness balances for C4. -/
def wEnv4 : Env := ⟨1000, 1⟩

/-- Witness signal for C4: an opposite-direction SELL at 96.5, which is
3.5% under the entry — beyond the default 3% stop-loss. -/
def wSig4 : Signal := ⟨"SELL", 75, "bearish", "bearish", 193/2⟩

/-- C4 witness: the stop-loss trade, not the CLOSE_LONG one, is what the
tick records at price 96.5 against entry 100. -/
theorem stop_loss_checked_before_signal_witness :
    (0 < defaultCfg.stop_loss_percent ∧ 0 < defaultCfg.take_profit_percent
      ∧ wSt4.entry_price ≠ 0 ∧ wSt4.position = some "long"
      ∧ 0 < wEnv4.btc_balance
      ∧ (wSig4.price - wSt4.entry_price) / wSt4.entry_price * 100
          ≤ -defaultCfg.stop_loss_percent)
    ∧ (tickWithSignal defaultCfg wEnv4 true true wSig4 wSt4).closed_trades
        = wSt4.closed_trades ++
          [⟨"STOP_LOSS_LONG", wSt4.entry_price, wSig4.price, wSt4.position_size,
            (wSig4.price - wSt4.entry_price) / wSt4.entry_price * 100,
            wSt4.position_size * (wSig4.price - wSt4.entry_price)⟩] :=
  ⟨⟨by norm_num [defaultCfg], by norm_num [defaultCfg], by norm_num [wSt4], rfl,
    by norm_num [wEnv4], by norm_num [wSig4, wSt4, defaultCfg]⟩,
   ((stop_loss_checked_before_signal defaultCfg wEnv4 true true wSig4 wSt4
      (by norm_num [defaultCfg]) (by norm_num [defaultCfg])
      (by norm_num [wSt4])).1 rfl (by norm_num [wEnv4])).1
     (by norm_num [wSig4, wSt4, defaultCfg])⟩

/-- Non-testnet configuration (otherwise `place_order` cannot fail). -/
def wCfg9 : Config := { testnet := false }

/-- Witness balances for C9. -/
def wEnv9 : Env := ⟨1000, 1⟩

/-- Witness state for C9: a long at entry 100. -/
def wSt9 : BotState :=
  { position := some "long", entry_price := 100, position_size := 1/1000,
    pyramid_levels := [], last_pyramid_price := 0, local_high := 0,
    local_low := none, closed_trades := [], positions_opened := 1,
    positions_closed := 0 }

/-- Witness signal for C9: price 96.5 triggers the 3% stop-loss. -/
def wSig9 : Signal := ⟨"SELL", 75, "bearish", "bearish", 193/2⟩

/-- C9 counterexample: a tick in which every order submission fails
(`place_order` returns no order) and the stop-loss fires — the source
discards the order result on that path, so the position tracking is
reset anyway: the Position does NOT remain as before the tick. -/
theorem order_failure_still_resets_position :
    (tickWithSignal wCfg9 wEnv9 false false wSig9 wSt9).position = none
      ∧ wSt9.position = some "long" := by
  constructor
  · have h1 : update_local_extremes wSig9.price wSig9 wSt9 = wSt9 := by
      simp [update_local_extremes, Signal.getStr, wSig9, wSt9]
    have hev := sl_long_eval wCfg9 wEnv9 false wSig9.price wSt9 rfl
      (by norm_num [wSt9]) (by norm_num [wEnv9])
      (by norm_num [wSig9, wSt9, wCfg9])
    simp only [tickWithSignal, h1]
    rw [hev]
    rw [check_pyramid_opportunity_none _ _ _ _ rfl]
    simp only [Bool.false_eq_true, if_false]
    rw [ite_self]
    norm_num [execute_trade, reset_position_tracking, wSig9, wCfg9, wEnv9,
      minConfidence]
  · rfl

/-- C9 (amended).  In the signal-driven paths — `execute_trade` and
`add_to_position`, with testnet off so that orders are actually
submitted — a failed order voids the transition: the Position (position,
entry price, size, pyramid levels) is exactly as before.  (The
stop-loss/take-profit path, by contrast, ignores the order result; see
the counterexample.) -/
theorem signal_order_failure_leaves_position (cfg : Config) (env : Env)
    (s : Signal) (st : BotState) (ht : cfg.testnet = false) :
    ((execute_trade cfg env false s st).position = st.position
      ∧ (execute_trade cfg env false s st).entry_price = st.entry_price
      ∧ (execute_trade cfg env false s st).position_size = st.position_size
      ∧ (execute_trade cfg env false s st).pyramid_levels = st.pyramid_levels)
    ∧ add_to_position cfg false s st = st := by
  constructor
  · unfold execute_trade
    split_ifs <;> simp_all
  · unfold add_to_position
    split_ifs <;> simp_all

/-- C9 witness: the amended theorem at a concrete non-testnet
configuration, state and signal. -/
theorem signal_order_failure_leaves_position_witness :
    wCfg9.testnet = false
    ∧ (((execute_trade wCfg9 wEnv9 false wSig9 wSt9).position = wSt9.position
        ∧ (execute_trade wCfg9 wEnv9 false wSig9 wSt9).entry_price = wSt9.entry_price
        ∧ (execute_trade wCfg9 wEnv9 false wSig9 wSt9).position_size = wSt9.position_size
        ∧ (execute_trade wCfg9 wEnv9 false wSig9 wSt9).pyramid_levels = wSt9.pyramid_levels)
      ∧ add_to_position wCfg9 false wSig9 wSt9 = wSt9) :=
  ⟨rfl, signal_order_failure_leaves_position wCfg9 wEnv9 wSig9 wSt9 rfl⟩

/-- A list of nonnegative rationals summing to zero is all zeros. -/
theorem list_sum_zero_all (l : List ℚ) (h0 : ∀ x ∈ l, 0 ≤ x)
    (hs : l.sum = 0) : ∀ x ∈ l, x = 0 := by
  induction l with
  | nil => intro x hx; cases hx
  | cons a t ih =>
    rw [List.sum_cons] at hs
    have ha : 0 ≤ a := h0 a (List.mem_cons_self a t)
    have ht : 0 ≤ t.sum :=
      List.sum_nonneg (fun x hx => h0 x (List.mem_cons_of_mem a hx))
    have ha0 : a = 0 := by linarith
    have hts : t.sum = 0 := by linarith
    intro x hx
    rcases List.mem_cons.mp hx with h | h
    · rw [h, ha0]
    · exact ih (fun y hy => h0 y (List.mem_cons_of_mem a hy)) hts x h

/-- The default-carrying last element of a list belongs to every
nonempty suffix. -/
theorem getLastD_mem_drop (l : List ℚ) (n : ℕ) (h : n < l.length) :
    l.getLastD 0 ∈ l.drop n := by
  have hne : l ≠ [] := by
    intro he
    rw [he] at h
    simp at h
  have hd : l.drop n ≠ [] := by
    intro he
    have := List.drop_eq_nil_iff.mp he
    omega
  have h1 : l.getLastD 0 = l.getLast hne := by
    rw [List.getLastD_eq_getLast?, List.getLast?_eq_getLast_of_ne_nil hne]
    rfl
  rw [h1, ← List.getLast_drop hd]
  exact List.getLast_mem hd

/-- Counterexample frame for C8: 21 candles with volume 0, so
`volume_sma` at the last row is 0. -/
def wC8 : List Candle := List.replicate 21 ⟨100, 0⟩

/-- The volume column of `wC8`. -/
theorem volumes_wC8 : volumes wC8 = List.replicate 21 0 := by
  simp [wC8, volumes]

/-- On `wC8` the 20-period volume mean at the last row is zero. -/
theorem volume_sma_wC8 : rollingMeanLast 20 (volumes wC8) = some 0 := by
  rw [volumes_wC8]
  simp only [rollingMeanLast, takeLast, List.length_replicate]
  rw [if_pos (by norm_num), List.drop_replicate]
  simp [List.sum_replicate]

/-- C8 counterexample: with a zero `volume_sma`, the pipeline does NOT
treat the volume ratio as 1.0 — the cell is NaN (the division has no
guard). -/
theorem volume_ratio_not_defaulted :
    rollingMeanLast 20 (volumes wC8) = some 0
      ∧ volume_ratio_last wC8 ≠ FVal.q 1 := by
  refine ⟨volume_sma_wC8, ?_⟩
  have hlast : lastVolume wC8 = 0 := by
    rw [lastVolume, volumes_wC8]
    simp [List.getLastD_eq_getLast?]
  rw [volume_ratio_last, volume_sma_wC8, hlast]
  simp [fdiv]

/-- C8 (amended).  Computing `volume_ratio = volume / volume_sma` has no
divide-by-zero guard: with nonnegative volumes, a zero or undefined
(NaN) `volume_sma` at the last row makes the ratio NaN, not 1.0;
nonetheless `high_volume` is never asserted from such a denominator,
because the float comparison `NaN > 1.5` is false. -/
theorem high_volume_guarded_on_degenerate_sma (c : List Candle)
    (hnn : ∀ v ∈ volumes c, 0 ≤ v)
    (h : rollingMeanLast 20 (volumes c) = none
      ∨ rollingMeanLast 20 (volumes c) = some 0) :
    volume_ratio_last c = FVal.nan ∧ (analyze_volume c).high_volume = false := by
  have hratio : volume_ratio_last c = FVal.nan := by
    rcases h with h0 | h0
    · rw [volume_ratio_last, h0]
      rfl
    · have hlen : 20 ≤ (volumes c).length := by
        by_contra hc
        rw [rollingMeanLast, if_neg hc] at h0
        exact absurd h0 (by simp)
      have hsum : (takeLast 20 (volumes c)).sum = 0 := by
        rw [rollingMeanLast, if_pos hlen] at h0
        have := Option.some.inj h0
        field_simp at this
        exact this
      have hzero : ∀ x ∈ takeLast 20 (volumes c), x = 0 :=
        list_sum_zero_all _
          (fun x hx => hnn x (List.drop_subset _ _ hx)) hsum
      have hmem : lastVolume c ∈ takeLast 20 (volumes c) := by
        rw [lastVolume, takeLast]
        exact getLastD_mem_drop _ _ (by omega)
      have hlast : lastVolume c = 0 := hzero _ hmem
      rw [volume_ratio_last, h0, hlast]
      simp [fdiv]
  refine ⟨hratio, ?_⟩
  unfold analyze_volume
  split_ifs
  · rfl
  · simp [hratio, fvalGt]

/-- The volumes of `wC8` are nonnegative. -/
theorem wC8_volumes_nonneg : ∀ v ∈ volumes wC8, 0 ≤ v := by
  intro v hv
  rw [volumes_wC8] at hv
  rw [List.eq_of_mem_replicate hv]

/-- C8 witness: the amended guard theorem applied to `wC8`. -/
theorem high_volume_guarded_on_degenerate_sma_witness :
    (∀ v ∈ volumes wC8, 0 ≤ v)
    ∧ (rollingMeanLast 20 (volumes wC8) = none
        ∨ rollingMeanLast 20 (volumes wC8) = some 0)
    ∧ (volume_ratio_last wC8 = FVal.nan
        ∧ (analyze_volume wC8).high_volume = false) :=
  ⟨wC8_volumes_nonneg, Or.inr volume_sma_wC8,
   high_volume_guarded_on_degenerate_sma wC8 wC8_volumes_nonneg
     (Or.inr volume_sma_wC8)⟩

/-- Long stop-loss evaluation of `check_stop_loss_take_profit` when the
exchange reports no BTC balance (`get_balance` returns 0 on any fetch
error): the ledger entry is appended but the position is NOT reset. -/
theorem sl_long_eval_nobtc (cfg : Config) (env : Env) (o : Bool) (p : ℚ)
    (st : BotState) (hpos : st.position = some "long")
    (hentry : st.entry_price ≠ 0) (hbtc : ¬ 0 < env.btc_balance)
    (hsl : (p - st.entry_price) / st.entry_price * 100 ≤ -cfg.stop_loss_percent) :
    check_stop_loss_take_profit cfg env o p st
      = { st with
          closed_trades := st.closed_trades ++
            [⟨"STOP_LOSS_LONG", st.entry_price, p, st.position_size,
              (p - st.entry_price) / st.entry_price * 100,
              st.position_size * (p - st.entry_price)⟩]
          positions_closed := st.positions_closed + 1 } := by
  unfold check_stop_loss_take_profit
  rw [hpos]
  rw [if_neg (by simp [hentry])]
  rw [if_pos (Or.inl rfl)]
  simp only [reduceIte]
  rw [if_pos hsl, if_neg hbtc]

/-- Balances for the C4 counterexample: the exchange reports 0 BTC, as
`get_balance` does whenever the balance fetch errors. -/
def wEnvC4 : Env := ⟨1000, 0⟩

/-- Opposite-direction SELL signal at 96.5 for the C4 counterexample. -/
def wSigC4 : Signal := ⟨"SELL", 75, "bearish", "bearish", 193/2⟩

/-- A long at entry 100 for the C4 counterexample. -/
def wStC4 : BotState :=
  { position := some "long", entry_price := 100, position_size := 1/1000,
    pyramid_levels := [], last_pyramid_price := 0, local_high := 0,
    local_low := none, closed_trades := [], positions_opened := 1,
    positions_closed := 0 }

/-- C4 counterexample: a tick on which the stop-loss condition holds
(pnl -3.5% against the default -3% threshold) together with an
opposite-direction SELL signal, with the exchange reporting 0 BTC.  The
tick records the STOP_LOSS_LONG trade AND the signal-driven CLOSE_LONG
trade, and the position is not force-closed — the claim's
"force-closed ... never the signal-driven one" fails on the code. -/
theorem stop_loss_tick_also_records_signal_close :
    ((wSigC4.price - wStC4.entry_price) / wStC4.entry_price * 100
        ≤ -defaultCfg.stop_loss_percent)
    ∧ (tickWithSignal defaultCfg wEnvC4 true true wSigC4 wStC4).closed_trades
        = [⟨"STOP_LOSS_LONG", 100, 193/2, 1/1000, -7/2, -7/2000⟩,
           ⟨"CLOSE_LONG", 100, 193/2, 1/1000, -7/2, -7/2000⟩]
    ∧ (tickWithSignal defaultCfg wEnvC4 true true wSigC4 wStC4).position
        = some "long" := by
  have h1 : update_local_extremes wSigC4.price wSigC4 wStC4 = wStC4 := by
    simp [update_local_extremes, Signal.getStr, wSigC4, wStC4]
  have hev := sl_long_eval_nobtc defaultCfg wEnvC4 true wSigC4.price wStC4 rfl
    (by norm_num [wStC4]) (by norm_num [wEnvC4])
    (by norm_num [wSigC4, wStC4, defaultCfg])
  have htick : tickWithSignal defaultCfg wEnvC4 true true wSigC4 wStC4
      = { position := some "long", entry_price := 100, position_size := 1/1000,
          pyramid_levels := [], last_pyramid_price := 0, local_high := 0,
          local_low := none,
          closed_trades :=
            [⟨"STOP_LOSS_LONG", 100, 193/2, 1/1000, -7/2, -7/2000⟩,
             ⟨"CLOSE_LONG", 100, 193/2, 1/1000, -7/2, -7/2000⟩],
          positions_opened := 1, positions_closed := 2 } := by
    simp only [tickWithSignal, h1]
    rw [hev]
    norm_num [check_pyramid_opportunity, check_contrarian_entry,
      execute_trade, minConfidence, Signal.getStr, wSigC4, wStC4, wEnvC4,
      defaultCfg]
    simp
  exact ⟨by norm_num [wSigC4, wStC4, defaultCfg], by rw [htick], by rw [htick]⟩
